import Mathlib

/-!
# Verification of the Project-Mind core subsystems

Shallow embedding of the three core components of the repository —
the lifecycle/permission state machine (`app/src/lifecycle/lifecycle_manager.py`),
the persistent profile/memory store (`app/src/memory/heart.py`), and the
bounded working cache (`app/src/memory/working_memory.py`) — together with
theorems settling the specification claims about them.

Modelling conventions:
* Python `float` values are modelled as `ℚ`; `datetime` instants as `ℚ`
  (seconds on an absolute axis); `datetime` subtraction and
  `timedelta.total_seconds()` become rational subtraction.
* Python `int(x)` truncation toward zero is `pyInt`.
* Python `dict` values are association lists whose insert replaces an
  existing key in place and otherwise appends (CPython dicts preserve
  insertion order).
* Methods that read `datetime.now()` take the current instant `now : ℚ`
  as an explicit argument.
-/

set_option maxHeartbeats 1000000

namespace ProjectMind

/-- Python `int(x)` for a rational: truncation toward zero. -/
def pyInt (q : ℚ) : ℤ :=
  if 0 ≤ q then ⌊q⌋ else -⌊-q⌋

/-- Association-list insert with Python-dict semantics: replace the first
occurrence of the key in place, otherwise append at the end. -/
def dictInsert {κ β : Type} [DecidableEq κ] (k : κ) (v : β) :
    List (κ × β) → List (κ × β)
  | [] => [(k, v)]
  | (k₀, v₀) :: rest =>
      if k₀ = k then (k, v) :: rest else (k₀, v₀) :: dictInsert k v rest

/-- Association-list lookup (Python `d[k]` / `k in d`). -/
def dictLookup {κ β : Type} [DecidableEq κ] (l : List (κ × β)) (k : κ) : Option β :=
  match l with
  | [] => none
  | (k₀, v₀) :: rest => if k₀ = k then some v₀ else dictLookup rest k

/-- Python `del d[key]`: remove the (unique) binding of `key`.  Association
lists built by `dictInsert` hold each key at most once, so removing every
occurrence coincides with removing the one binding. -/
def dictErase {κ β : Type} [DecidableEq κ] (k : κ) (l : List (κ × β)) :
    List (κ × β) :=
  l.filter (fun p => p.1 ≠ k)

/-! ## Lifecycle & State Manager (`lifecycle_manager.py`) -/

/-- `PermissionType` enum of `src/types.py`. -/
inductive PermissionType
  | microphone
  | camera
  | sensors
  | location
  | full_ai_mode
  | background_monitoring
  | emergency_detection
  | cloud_sync
  | app_scanning
  | internet_search
deriving DecidableEq, Repr

/-- `PermissionGrant` dataclass of `src/types.py`. -/
structure PermissionGrant where
  permission : PermissionType
  granted : Bool
  granted_at : Option ℚ := none
  revoked_at : Option ℚ := none
  explicit_consent : Bool := false
deriving DecidableEq, Repr

/-- `AILifecycleStage` enum of `lifecycle_manager.py`. -/
inductive AILifecycleStage
  | birth
  | initialization
  | early_learning
  | growth
  | mature
  | dormant
  | end_of_life
deriving DecidableEq, Repr

/-- State of a `LifecycleManager` instance (its `__init__` fields). -/
structure LifecycleState where
  current_stage : AILifecycleStage
  birth_time : ℚ
  last_active_time : ℚ
  runtime_seconds : ℤ
  permissions : PermissionType → PermissionGrant
  milestones_reached : List (String × ℚ)
  interaction_count : ℕ
  days_active : ℤ
  full_ai_mode_enabled : Bool
  full_ai_mode_activated_time : Option ℚ
  background_monitoring_active : Bool
  is_charging : Bool
  battery_percent : ℚ

/-- `LifecycleManager._init_permissions`: all permissions denied by default. -/
def initPermissions : PermissionType → PermissionGrant :=
  fun p => { permission := p, granted := false, explicit_consent := false }

/-- `LifecycleManager.__init__` called at instant `now`. -/
def initState (now : ℚ) : LifecycleState where
  current_stage := .birth
  birth_time := now
  last_active_time := now
  runtime_seconds := 0
  permissions := initPermissions
  milestones_reached := []
  interaction_count := 0
  days_active := 0
  full_ai_mode_enabled := false
  full_ai_mode_activated_time := none
  background_monitoring_active := false
  is_charging := false
  battery_percent := 100

/-- `_record_milestone`: write-once ledger keyed by milestone name. -/
def recordMilestone (name : String) (now : ℚ) (s : LifecycleState) : LifecycleState :=
  if (s.milestones_reached.map Prod.fst).contains name then s
  else { s with milestones_reached := s.milestones_reached ++ [(name, now)] }

/-- `on_birth`. -/
def onBirth (now : ℚ) (s : LifecycleState) : LifecycleState :=
  recordMilestone "birth" now
    { s with birth_time := now, last_active_time := now,
             current_stage := .initialization }

/-- `_check_full_ai_mode_available`: records a milestone when microphone,
camera, sensors and full_ai_mode are all granted. -/
def checkFullAIModeAvailable (now : ℚ) (s : LifecycleState) : LifecycleState :=
  let allGranted :=
    (s.permissions .microphone).granted &&
    (s.permissions .camera).granted &&
    (s.permissions .sensors).granted &&
    (s.permissions .full_ai_mode).granted
  if allGranted then recordMilestone "full_ai_mode_available" now s else s

/-- `request_permission(permission, user_approved)`: on approval sets
`granted`, `explicit_consent` and `granted_at`, then (for `FULL_AI_MODE`)
re-evaluates Full-AI-Mode availability; returns `True`.  Without approval
it is a no-op returning `False`. -/
def requestPermission (p : PermissionType) (userApproved : Bool) (now : ℚ)
    (s : LifecycleState) : Bool × LifecycleState :=
  if userApproved then
    let grant := s.permissions p
    let s₁ := { s with permissions := fun q =>
      if q = p then
        { grant with granted := true, explicit_consent := true, granted_at := some now }
      else s.permissions q }
    if p = .full_ai_mode then (true, checkFullAIModeAvailable now s₁) else (true, s₁)
  else
    (false, s)

/-- `revoke_permission(permission)`. -/
def revokePermission (p : PermissionType) (now : ℚ) (s : LifecycleState) :
    LifecycleState :=
  let grant := s.permissions p
  let s₁ := { s with permissions := fun q =>
    if q = p then { grant with granted := false, revoked_at := some now }
    else s.permissions q }
  if p = .full_ai_mode then { s₁ with full_ai_mode_enabled := false } else s₁

/-- `enable_full_ai_mode`: returns `False` unless the `FULL_AI_MODE`
permission is granted; otherwise sets the flag, records the milestone and
returns `True`. -/
def enableFullAIMode (now : ℚ) (s : LifecycleState) : Bool × LifecycleState :=
  if (s.permissions .full_ai_mode).granted then
    (true, recordMilestone "full_ai_mode_enabled" now
      { s with full_ai_mode_enabled := true,
               full_ai_mode_activated_time := some now })
  else
    (false, s)

/-- `disable_full_ai_mode`. -/
def disableFullAIMode (s : LifecycleState) : LifecycleState :=
  { s with full_ai_mode_enabled := false }

/-- `_check_stage_progression`: refreshes elapsed-time tracking, then
advances the stage by the threshold rules (an `elif` chain, so at most one
branch fires). -/
def checkStageProgression (now : ℚ) (s : LifecycleState) : LifecycleState :=
  let timeActive := now - s.birth_time
  let s₁ := { s with runtime_seconds := pyInt timeActive,
                     days_active := pyInt (timeActive / 86400) }
  if s₁.current_stage = .initialization then
    if 5 < s₁.interaction_count then
      recordMilestone "early_learning_started" now
        { s₁ with current_stage := .early_learning }
    else s₁
  else if s₁.current_stage = .early_learning then
    if 50 < s₁.interaction_count ∨ 1 ≤ s₁.days_active then
      recordMilestone "growth_stage_reached" now
        { s₁ with current_stage := .growth }
    else s₁
  else if s₁.current_stage = .growth then
    if 500 < s₁.interaction_count ∨ 7 ≤ s₁.days_active then
      recordMilestone "maturity_reached" now
        { s₁ with current_stage := .mature }
    else s₁
  else s₁

/-- `on_interaction`. -/
def onInteraction (now : ℚ) (s : LifecycleState) : LifecycleState :=
  checkStageProgression now
    { s with last_active_time := now,
             interaction_count := s.interaction_count + 1 }

/-- `on_phone_active`. -/
def onPhoneActive (now : ℚ) (s : LifecycleState) : LifecycleState :=
  let s₁ := { s with last_active_time := now }
  if s₁.current_stage = .dormant then { s₁ with current_stage := .growth } else s₁

/-- `on_phone_sleep`. -/
def onPhoneSleep (s : LifecycleState) : LifecycleState :=
  if s.full_ai_mode_enabled ∧ s.background_monitoring_active then s
  else { s with current_stage := .dormant }

/-- `on_charging`. -/
def onCharging (b : Bool) (s : LifecycleState) : LifecycleState :=
  { s with is_charging := b }

/-- `on_battery_update`. -/
def onBatteryUpdate (q : ℚ) (s : LifecycleState) : LifecycleState :=
  { s with battery_percent := q }

/-- `on_phone_shutdown`. -/
def onPhoneShutdown (now : ℚ) (s : LifecycleState) : LifecycleState :=
  recordMilestone "last_active" now s

/-- `on_uninstall`. -/
def onUninstall (now : ℚ) (s : LifecycleState) : LifecycleState :=
  recordMilestone "end_of_life" now { s with current_stage := .end_of_life }

/-- One call into the `LifecycleManager` public surface (boolean results of
`request_permission` / `enable_full_ai_mode` are discarded by the driver). -/
inductive LCEvent
  | birth (now : ℚ)
  | reqPerm (p : PermissionType) (userApproved : Bool) (now : ℚ)
  | revoke (p : PermissionType) (now : ℚ)
  | enableFAM (now : ℚ)
  | disableFAM
  | interaction (now : ℚ)
  | phoneActive (now : ℚ)
  | phoneSleep
  | charging (b : Bool)
  | battery (q : ℚ)
  | shutdown (now : ℚ)
  | uninstall (now : ℚ)
deriving DecidableEq, Repr

/-- Apply one event to the state. -/
def step (s : LifecycleState) (e : LCEvent) : LifecycleState :=
  match e with
  | .birth now => onBirth now s
  | .reqPerm p a now => (requestPermission p a now s).2
  | .revoke p now => revokePermission p now s
  | .enableFAM now => (enableFullAIMode now s).2
  | .disableFAM => disableFullAIMode s
  | .interaction now => onInteraction now s
  | .phoneActive now => onPhoneActive now s
  | .phoneSleep => onPhoneSleep s
  | .charging b => onCharging b s
  | .battery q => onBatteryUpdate q s
  | .shutdown now => onPhoneShutdown now s
  | .uninstall now => onUninstall now s

/-- Run a call sequence from a manager freshly constructed at `now₀`. -/
def run (now₀ : ℚ) (evs : List LCEvent) : LifecycleState :=
  evs.foldl step (initState now₀)

/-- Events the terminality claim quantifies over besides `onPhoneSleep`. -/
def isQuietEvent : LCEvent → Bool
  | .interaction _ => true
  | .phoneActive _ => true
  | _ => false

/-! ## Heart — persistent store (`heart.py`)

`heart.py` imports its dataclasses from `src.project_types`; that module is
absent from the repository, but `src/types.py` declares the same-named
classes with exactly the fields `heart.py` reads and writes on
`MemoryEntry`, `PersonalityTrait`, `EmotionalProfile` and `NameProfile`,
so those are embedded from `src/types.py`.  `PersonaProfile` (whose
`to_dict` and constructor signature used by `heart.py` do not match
`src/types.py`) is modelled from the spec instead; see its doc comment. -/

/-- `EmotionalState` enum of `src/types.py`.  Its string `value` encoding
(used by `save`/`load`) is a bijection, so the enum itself is stored in the
document model. -/
inductive EmotionalState
  | happy
  | curious
  | concerned
  | excited
  | calm
  | focused
  | playful
  | protective
deriving DecidableEq, Repr

/-- `NamingStatus` enum of `src/types.py`. -/
inductive NamingStatus
  | unnamed
  | awaiting_name
  | named
  | name_changing
deriving DecidableEq, Repr

/-- `MemoryEntry` dataclass of `src/types.py`.  `to_dict` serializes every
field below (timestamps as ISO strings — a bijective encoding, kept as
`ℚ` here). -/
structure MemoryEntry where
  timestamp : ℚ
  category : String
  content : String
  importance_score : ℚ
  tags : List String := []
  related_memories : List ℤ := []
deriving DecidableEq, Repr

/-- `PersonalityTrait` dataclass of `src/types.py`. -/
structure PersonalityTrait where
  name : String
  value : ℚ
  influences : List String := []
deriving DecidableEq, Repr

/-- `EmotionalProfile` dataclass of `src/types.py`. -/
structure EmotionalProfile where
  trust_level : ℚ
  affinity : ℚ
  emotional_bond_strength : ℚ
  dominant_emotion : EmotionalState
  emotional_memory : List (String × ℚ) := []
  shared_experiences : ℕ := 0
deriving DecidableEq, Repr

/-- `NameProfile` dataclass of `src/types.py`, restricted to the fields
`heart.py` persists or restores (`last_name_change`, `last_name_changed_by`,
`name_pronunciation_guide` and `created_at` are never read or written by
the Heart and are omitted). -/
structure NameProfile where
  ai_name : Option String := none
  user_name : Option String := none
  naming_status : NamingStatus := .unnamed
  date_named : Option ℚ := none
  total_name_changes : ℕ := 0
  emotional_attachment_to_name : ℚ := 0
  use_name_in_greetings : Bool := true
  use_name_in_conversations : Bool := true
  use_user_name_in_responses : Bool := true
deriving DecidableEq, Repr

/-- Modelled from the spec: `src.project_types.PersonaProfile` is missing
from the repository.  Per the spec, the Heart treats the persona profile as
an opaque structured block it "stores and retrieves verbatim"; the fields
are the ones `Heart.save`/`Heart.load` pass through (`face`, `behavior`,
`voice`, `adoption_progress`, `archetype`, `reference_image_hash`), the
sub-blocks being uninterpreted values modelled as strings, and `to_dict`
being the identity on these fields. -/
structure PersonaProfile where
  face : Option String := none
  behavior : Option String := none
  voice : Option String := none
  adoption_progress : ℚ := 0
  archetype : Option String := none
  reference_image_hash : Option String := none
deriving DecidableEq, Repr

/-- The emotional-profile block as written by `Heart.save` (the
`emotional_memory` dict is not serialized). -/
structure EmotionalProfileDoc where
  trust_level : ℚ
  affinity : ℚ
  emotional_bond_strength : ℚ
  dominant_emotion : EmotionalState
  shared_experiences : ℕ
deriving DecidableEq, Repr

/-- The JSON document `Heart.save` writes: top-level timestamp plus the
five sections.  Memory-entry keys are `str(id)` in the JSON — a bijective
encoding of the integer id, kept as `ℕ` here; entry blocks carry every
`MemoryEntry.to_dict` field.  The name-profile block carries exactly the
nine fields `save` writes, i.e. a `NameProfile` record. -/
structure HeartDoc where
  saved_at : ℚ
  memory_entries : List (ℕ × MemoryEntry)
  personality_traits : List (String × PersonalityTrait)
  emotional_profile : Option EmotionalProfileDoc
  name_profile : Option NameProfile
  persona_profile : Option PersonaProfile
deriving DecidableEq, Repr

/-- Content of the storage file: either an unparseable blob (on which
`json.load` raises) or a parseable document. -/
inductive HeartFile
  | corrupt
  | doc (d : HeartDoc)
deriving DecidableEq, Repr

/-- Error surfaced by `Heart.load` on an unparseable file.  The code lets
the JSON parse error (`json.JSONDecodeError`) propagate to the caller;
the spec names this failure `DataCorruptionError`. -/
inductive HeartError
  | dataCorruption
deriving DecidableEq, Repr

/-- State of a `Heart` instance together with its storage file (the
"disk" is part of the model state so that write-through persistence is
expressible). -/
structure HeartState where
  memory_entries : List (ℕ × MemoryEntry)
  personality_traits : List (String × PersonalityTrait)
  emotional_profile : Option EmotionalProfile
  name_profile : Option NameProfile
  persona_profile : Option PersonaProfile
  memory_counter : ℕ
  is_encrypted : Bool
  file : Option HeartFile
deriving DecidableEq, Repr

/-- The field values `Heart.__init__` sets before `_load_or_initialize`,
over a storage file with the given content (`none` = file absent). -/
def freshHeart (file : Option HeartFile) : HeartState where
  memory_entries := []
  personality_traits := []
  emotional_profile := none
  name_profile := none
  persona_profile := none
  memory_counter := 0
  is_encrypted := true
  file := file

/-- The document `Heart.save` builds from the in-memory state at `now`. -/
def mkDoc (now : ℚ) (s : HeartState) : HeartDoc where
  saved_at := now
  memory_entries := s.memory_entries
  personality_traits := s.personality_traits
  emotional_profile := s.emotional_profile.map fun ep =>
    { trust_level := ep.trust_level
      affinity := ep.affinity
      emotional_bond_strength := ep.emotional_bond_strength
      dominant_emotion := ep.dominant_emotion
      shared_experiences := ep.shared_experiences }
  name_profile := s.name_profile
  persona_profile := s.persona_profile

/-- `Heart.save`: full rewrite of the storage file. -/
def heartSave (now : ℚ) (s : HeartState) : HeartState :=
  { s with file := some (.doc (mkDoc now s)) }

/-- `Heart.load` applied to an already-parsed document: inserts the
entries (dropping `related_memories`, which the constructor call omits),
recomputes `memory_counter` as `max(keys)+1`, inserts the traits, rebuilds
the emotional profile (with a fresh empty `emotional_memory`), rebuilds the
name profile from the subset of fields the constructor call passes
(`naming_status` and `date_named` are omitted and so take their dataclass
defaults), and rebuilds the persona profile. -/
def heartLoadDoc (d : HeartDoc) (s : HeartState) : HeartState :=
  let entries := d.memory_entries.foldl
    (fun acc p => dictInsert p.1
      { timestamp := p.2.timestamp
        category := p.2.category
        content := p.2.content
        importance_score := p.2.importance_score
        tags := p.2.tags
        related_memories := [] } acc) s.memory_entries
  let counter := match (entries.map Prod.fst).maximum with
    | some m => m + 1
    | none => 0
  let traits := d.personality_traits.foldl
    (fun acc p => dictInsert p.1
      { name := p.2.name, value := p.2.value, influences := p.2.influences } acc)
    s.personality_traits
  let emotional := match d.emotional_profile with
    | some ep => some
        { trust_level := ep.trust_level
          affinity := ep.affinity
          emotional_bond_strength := ep.emotional_bond_strength
          dominant_emotion := ep.dominant_emotion
          emotional_memory := []
          shared_experiences := ep.shared_experiences }
    | none => s.emotional_profile
  let naming : NameProfile := match d.name_profile with
    | some np =>
        { ai_name := np.ai_name
          user_name := np.user_name
          total_name_changes := np.total_name_changes
          emotional_attachment_to_name := np.emotional_attachment_to_name
          use_name_in_greetings := np.use_name_in_greetings
          use_name_in_conversations := np.use_name_in_conversations
          use_user_name_in_responses := np.use_user_name_in_responses }
    | none => {}
  let persona := match d.persona_profile with
    | some pp => some
        { face := pp.face
          behavior := pp.behavior
          voice := pp.voice
          adoption_progress := pp.adoption_progress
          archetype := pp.archetype
          reference_image_hash := pp.reference_image_hash }
    | none => s.persona_profile
  { s with memory_entries := entries
           memory_counter := counter
           personality_traits := traits
           emotional_profile := emotional
           name_profile := some naming
           persona_profile := persona }

/-- `Heart.load`: no-op when the file is absent; a fatal parse error when
it is unparseable; otherwise deserializes the document. -/
def heartLoad (s : HeartState) : Except HeartError HeartState :=
  match s.file with
  | none => .ok s
  | some .corrupt => .error .dataCorruption
  | some (.doc d) => .ok (heartLoadDoc d s)

/-- The six base personality traits of `_initialize_new_heart`. -/
def baseTraits : List (String × PersonalityTrait) :=
  [ ("helpfulness", { name := "helpfulness", value := 9/10 })
  , ("curiosity", { name := "curiosity", value := 4/5 })
  , ("empathy", { name := "empathy", value := 7/10 })
  , ("playfulness", { name := "playfulness", value := 3/5 })
  , ("caution", { name := "caution", value := 1/2 })
  , ("adaptability", { name := "adaptability", value := 4/5 }) ]

/-- The default emotional profile of `_initialize_new_heart`. -/
def defaultEmotionalProfile : EmotionalProfile where
  trust_level := 1/2
  affinity := 1/2
  emotional_bond_strength := 0
  dominant_emotion := .curious
  shared_experiences := 0

/-- `_initialize_new_heart`: seed defaults and persist immediately. -/
def initializeNewHeart (now : ℚ) (s : HeartState) : HeartState :=
  heartSave now
    { s with emotional_profile := some defaultEmotionalProfile
             personality_traits := baseTraits
             name_profile := some {} }

/-- `_load_or_initialize` (the tail of `Heart.__init__`). -/
def loadOrInitialize (now : ℚ) (s : HeartState) : Except HeartError HeartState :=
  match s.file with
  | none => .ok (initializeNewHeart now s)
  | some _ => heartLoad s

/-- `Heart.store_memory`: clamp importance, assign the next id, append,
persist synchronously, return the id. -/
def storeMemory (now : ℚ) (category content : String) (importance : ℚ)
    (tags : Option (List String)) (s : HeartState) : ℕ × HeartState :=
  let entry : MemoryEntry :=
    { timestamp := now
      category := category
      content := content
      importance_score := min 1 (max 0 importance)
      tags := tags.getD []
      related_memories := [] }
  let entryId := s.memory_counter
  let s₁ := { s with memory_entries := dictInsert entryId entry s.memory_entries
                     memory_counter := s.memory_counter + 1 }
  (entryId, heartSave now s₁)

/-- Python round-half-even on a rational (ties go to the even integer). -/
def roundHalfEven (q : ℚ) : ℤ :=
  let f := ⌊q⌋
  let r := q - f
  if r < 1/2 then f
  else if 1/2 < r then f + 1
  else if f % 2 = 0 then f else f + 1

/-- Python string formatting with `.2f`: two digits after the decimal
point, round half to even. -/
def formatTwoDecimals (q : ℚ) : String :=
  let n := roundHalfEven (q * 100)
  let sign := if n < 0 then "-" else ""
  let m := n.natAbs
  let fracPart := m % 100
  let fracStr := if fracPart < 10 then "0" ++ toString fracPart else toString fracPart
  sign ++ toString (m / 100) ++ "." ++ fracStr

/-- An ASCII single-quote character. -/
def singleQuote : String := String.singleton (Char.ofNat 39)

/-- The memory content logged by `update_personality_trait` when a reason
is supplied. -/
def traitLogContent (traitName : String) (value : ℚ) (reason : String) : String :=
  "Trait " ++ singleQuote ++ traitName ++ singleQuote ++ " adjusted to " ++
    formatTwoDecimals value ++ ". Reason: " ++ reason

/-- `Heart.update_personality_trait`: if the trait exists, damped update
`clamp((old + proposed)/2, 0, 1)`; when a reason is supplied, additionally
log a memory entry (which is what triggers a save). -/
def updatePersonalityTrait (now : ℚ) (traitName : String) (newValue : ℚ)
    (reason : Option String) (s : HeartState) : HeartState :=
  match dictLookup s.personality_traits traitName with
  | none => s
  | some trait =>
      let v := min 1 (max 0 ((trait.value + newValue) / 2))
      let s₁ := { s with personality_traits :=
        (dictInsert traitName { trait with value := v } s.personality_traits) }
      match reason with
      | none => s₁
      | some r =>
          (storeMemory now "personality_update" (traitLogContent traitName v r)
            (7/10) none s₁).2

/-! ## Working Memory (`working_memory.py`)

The cache stores Python `Any` payloads (reasoning results, context values,
interaction-log context entries); these are modelled by a type parameter
`α`. -/

/-- `InteractionLog` dataclass of `src/types.py`; the `Dict[str, Any]`
context is a string-keyed association list of payloads. -/
structure InteractionLog (α : Type) where
  timestamp : ℚ
  interaction_type : String
  content : String
  ai_response : String
  emotion_detected : Option String
  context : List (String × α) := []
deriving DecidableEq, Repr

/-- `SensorData` dataclass of `src/types.py`. -/
structure SensorData where
  timestamp : ℚ
  accelerometer : Option (ℚ × ℚ × ℚ) := none
  gyroscope : Option (ℚ × ℚ × ℚ) := none
  proximity : Option ℚ := none
  light_level : Option ℚ := none
  audio_level : Option ℚ := none
  motion_detected : Bool := false
  abnormal_motion : Bool := false
  scream_detected : Bool := false
  fall_detected : Bool := false
deriving DecidableEq, Repr

/-- The dict `cache_reasoning_result` stores per key. -/
structure CachedReasoning (α : Type) where
  result : α
  timestamp : ℚ
  ttl : ℤ
deriving DecidableEq, Repr

/-- The dict `set_context` stores per key. -/
structure ContextEntry (α : Type) where
  value : α
  updated_at : ℚ
deriving DecidableEq, Repr

/-- State of a `WorkingMemory` instance.  `recent_interactions` is a
`deque(maxlen=100)`: appending beyond 100 elements drops from the front. -/
structure WorkingMemory (α : Type) where
  max_entries : ℕ
  retention_seconds : ℕ
  recent_interactions : List (InteractionLog α)
  sensor_cache : List (String × SensorData)
  reasoning_cache : List (String × CachedReasoning α)
  context_state : List (String × ContextEntry α)
  cache_hits : ℕ
  cache_misses : ℕ
deriving DecidableEq, Repr

/-- `WorkingMemory.__init__` (defaults `max_entries=1000`,
`retention_seconds=3600`). -/
def initWorkingMemory (α : Type) (maxEntries : ℕ := 1000)
    (retentionSeconds : ℕ := 3600) : WorkingMemory α where
  max_entries := maxEntries
  retention_seconds := retentionSeconds
  recent_interactions := []
  sensor_cache := []
  reasoning_cache := []
  context_state := []
  cache_hits := 0
  cache_misses := 0

/-- Append to a `deque` with the given `maxlen`: when full, the oldest
(leftmost) element is discarded. -/
def dequeAppend {α : Type} (maxlen : ℕ) (l : List α) (x : α) : List α :=
  let l' := l ++ [x]
  l'.drop (l'.length - maxlen)

/-- `_purge_old_data`: drop sensor entries older than the retention window
and TTL-expired reasoning entries (deletion preserves the order of the
surviving entries). -/
def purgeOldData {α : Type} (now : ℚ) (s : WorkingMemory α) : WorkingMemory α :=
  let cutoff := now - (s.retention_seconds : ℚ)
  { s with
    sensor_cache := s.sensor_cache.filter fun p => ¬ p.2.timestamp < cutoff
    reasoning_cache := s.reasoning_cache.filter fun p =>
      ¬ (p.2.ttl : ℚ) < now - p.2.timestamp }

/-- `store_interaction`: append to the capacity-100 ring, then purge. -/
def storeInteraction {α : Type} (now : ℚ) (x : InteractionLog α)
    (s : WorkingMemory α) : WorkingMemory α :=
  purgeOldData now
    { s with recent_interactions := dequeAppend 100 s.recent_interactions x }

/-- `store_sensor_data`. -/
def storeSensorData {α : Type} (name : String) (data : SensorData)
    (s : WorkingMemory α) : WorkingMemory α :=
  { s with sensor_cache := dictInsert name data s.sensor_cache }

/-- `cache_reasoning_result` (default `ttl_seconds=300`). -/
def cacheReasoningResult {α : Type} (key : String) (result : α)
    (ttlSeconds : ℤ) (now : ℚ) (s : WorkingMemory α) : WorkingMemory α :=
  { s with reasoning_cache :=
      (dictInsert key { result := result, timestamp := now, ttl := ttlSeconds }
        s.reasoning_cache) }

/-- `get_cached_reasoning`: miss (counted) on an absent key; on a present
key whose age exceeds its TTL, evict, count a miss; otherwise count a hit
and return the value. -/
def getCachedReasoning {α : Type} (key : String) (now : ℚ)
    (s : WorkingMemory α) : Option α × WorkingMemory α :=
  match dictLookup s.reasoning_cache key with
  | none => (none, { s with cache_misses := s.cache_misses + 1 })
  | some cached =>
      if (cached.ttl : ℚ) < now - cached.timestamp then
        (none, { s with reasoning_cache := dictErase key s.reasoning_cache
                        cache_misses := s.cache_misses + 1 })
      else
        (some cached.result, { s with cache_hits := s.cache_hits + 1 })

/-- `set_context`. -/
def setContext {α : Type} (key : String) (value : α) (now : ℚ)
    (s : WorkingMemory α) : WorkingMemory α :=
  { s with context_state :=
      dictInsert key { value := value, updated_at := now } s.context_state }

/-- `clear`: empties the four collections (and nothing else). -/
def wmClear {α : Type} (s : WorkingMemory α) : WorkingMemory α :=
  { s with recent_interactions := []
           sensor_cache := []
           reasoning_cache := []
           context_state := [] }

/-- The record returned by `get_performance_stats`. -/
structure PerformanceStats where
  cache_hits : ℕ
  cache_misses : ℕ
  hit_rate_percent : ℚ
  interactions_stored : ℕ
  sensor_entries : ℕ
  reasoning_cache_size : ℕ
  context_entries : ℕ
deriving DecidableEq, Repr

/-- `get_performance_stats`. -/
def getPerformanceStats {α : Type} (s : WorkingMemory α) : PerformanceStats :=
  let total := s.cache_hits + s.cache_misses
  { cache_hits := s.cache_hits
    cache_misses := s.cache_misses
    hit_rate_percent := if 0 < total then (s.cache_hits : ℚ) / total * 100 else 0
    interactions_stored := s.recent_interactions.length
    sensor_entries := s.sensor_cache.length
    reasoning_cache_size := s.reasoning_cache.length
    context_entries := s.context_state.length }

/-- The reachable-state consent invariant: a permission is never `granted`
without `explicit_consent` (the two are only ever set together by
`request_permission`). -/
def ConsentInvariant (s : LifecycleState) : Prop :=
  ∀ p, (s.permissions p).granted = true → (s.permissions p).explicit_consent = true

/-- A concrete interaction log used to instantiate cache theorems. -/
def sampleLog (i : ℕ) : InteractionLog Unit where
  timestamp := (i : ℚ)
  interaction_type := "touch"
  content := "hello"
  ai_response := "hi"
  emotion_detected := none

/-- The default-seeded heart state as `_initialize_new_heart` builds it
just before its initial `save` (used to name the persisted document in
concrete statements). -/
def seededHeart : HeartState :=
  { freshHeart none with
      emotional_profile := some defaultEmotionalProfile
      personality_traits := baseTraits
      name_profile := some {} }

/-! ## Auxiliary lemmas -/

theorem dictLookup_dictInsert_self {κ β : Type} [DecidableEq κ] (k : κ) (v : β)
    (l : List (κ × β)) : dictLookup (dictInsert k v l) k = some v := by
  induction l with
  | nil => simp [dictInsert, dictLookup]
  | cons hd tl ih =>
      obtain ⟨k₀, v₀⟩ := hd
      by_cases h : k₀ = k
      · simp [dictInsert, dictLookup, h]
      · simp [dictInsert, dictLookup, h, ih]

theorem dictLookup_dictErase_self {κ β : Type} [DecidableEq κ] (k : κ)
    (l : List (κ × β)) : dictLookup (dictErase k l) k = none := by
  induction l with
  | nil => simp [dictErase, dictLookup]
  | cons hd tl ih =>
      obtain ⟨k₀, v₀⟩ := hd
      by_cases h : k₀ = k
      · simpa [dictErase, h] using ih
      · simpa [dictErase, dictLookup, h] using ih

theorem dictInsert_of_not_mem {κ β : Type} [DecidableEq κ] (k : κ) (v : β)
    (l : List (κ × β)) (h : k ∉ l.map Prod.fst) :
    dictInsert k v l = l ++ [(k, v)] := by
  induction l with
  | nil => simp [dictInsert]
  | cons hd tl ih =>
      obtain ⟨k₀, v₀⟩ := hd
      simp only [List.map_cons, List.mem_cons] at h
      push_neg at h
      have hne : ¬ k₀ = k := fun hk => h.1 hk.symm
      simp [dictInsert, hne, ih h.2]

theorem foldl_dictInsert_append {κ β β' : Type} [DecidableEq κ] (F : κ × β → β') :
    ∀ (l : List (κ × β)) (acc : List (κ × β')),
      (l.map Prod.fst).Nodup → (∀ k ∈ l.map Prod.fst, k ∉ acc.map Prod.fst) →
      l.foldl (fun a p => dictInsert p.1 (F p) a) acc
        = acc ++ l.map (fun p => (p.1, F p))
  | [], acc, _, _ => by simp
  | p :: tl, acc, hnd, hdisj => by
      have hp : p.1 ∉ acc.map Prod.fst := hdisj p.1 (by simp)
      have hnd₂ : p.1 ∉ tl.map Prod.fst ∧ (tl.map Prod.fst).Nodup := by
        rw [List.map_cons, List.nodup_cons] at hnd
        exact hnd
      have hnd' : (tl.map Prod.fst).Nodup := hnd₂.2
      have hp_tl : p.1 ∉ tl.map Prod.fst := hnd₂.1
      have hdisj' : ∀ k ∈ tl.map Prod.fst,
          k ∉ (dictInsert p.1 (F p) acc).map Prod.fst := by
        intro k hk
        rw [dictInsert_of_not_mem p.1 (F p) acc hp]
        simp only [List.map_append, List.mem_append]
        push_neg
        constructor
        · exact hdisj k (by simp [hk])
        · simp only [List.map_cons, List.map_nil, List.mem_singleton]
          intro hkp
          exact hp_tl (hkp ▸ hk)
      calc (p :: tl).foldl (fun a q => dictInsert q.1 (F q) a) acc
          = tl.foldl (fun a q => dictInsert q.1 (F q) a)
              (dictInsert p.1 (F p) acc) := by simp
        _ = dictInsert p.1 (F p) acc ++ tl.map (fun q => (q.1, F q)) :=
            foldl_dictInsert_append F tl _ hnd' hdisj'
        _ = acc ++ (p :: tl).map (fun q => (q.1, F q)) := by
            rw [dictInsert_of_not_mem p.1 (F p) acc hp]
            simp

theorem recordMilestone_permissions (name : String) (now : ℚ) (s : LifecycleState) :
    (recordMilestone name now s).permissions = s.permissions := by
  unfold recordMilestone
  split <;> rfl

theorem recordMilestone_current_stage (name : String) (now : ℚ) (s : LifecycleState) :
    (recordMilestone name now s).current_stage = s.current_stage := by
  unfold recordMilestone
  split <;> rfl

theorem recordMilestone_interaction_count (name : String) (now : ℚ)
    (s : LifecycleState) :
    (recordMilestone name now s).interaction_count = s.interaction_count := by
  unfold recordMilestone
  split <;> rfl

theorem recordMilestone_fam (name : String) (now : ℚ) (s : LifecycleState) :
    (recordMilestone name now s).full_ai_mode_enabled = s.full_ai_mode_enabled := by
  unfold recordMilestone
  split <;> rfl

theorem recordMilestone_contains_self (name : String) (now : ℚ) (s : LifecycleState) :
    ((recordMilestone name now s).milestones_reached.map Prod.fst).contains name
      = true := by
  unfold recordMilestone
  split
  · next h => exact h
  · simp

theorem recordMilestone_nodup (name : String) (now : ℚ) (s : LifecycleState)
    (h : (s.milestones_reached.map Prod.fst).Nodup) :
    ((recordMilestone name now s).milestones_reached.map Prod.fst).Nodup := by
  unfold recordMilestone
  split
  · exact h
  · next hni =>
      simp only [List.contains_iff_exists_mem_beq] at hni
      push_neg at hni
      simp only [List.map_append, List.map_cons, List.map_nil]
      refine List.Nodup.append h (by simp) ?_
      intro a ha hb
      simp only [List.mem_singleton] at hb
      subst hb
      exact hni a ha (by simp)

theorem checkFullAIModeAvailable_permissions (now : ℚ) (s : LifecycleState) :
    (checkFullAIModeAvailable now s).permissions = s.permissions := by
  simp only [checkFullAIModeAvailable]
  split
  · exact recordMilestone_permissions _ _ _
  · rfl

theorem consentInvariant_init (now : ℚ) : ConsentInvariant (initState now) := by
  intro p h
  simp [initState, initPermissions] at h

theorem consentInvariant_step (s : LifecycleState) (e : LCEvent)
    (h : ConsentInvariant s) : ConsentInvariant (step s e) := by
  cases e with
  | birth now =>
      intro p
      simp only [step, onBirth, recordMilestone_permissions]
      exact h p
  | reqPerm p approved now =>
      intro q
      simp only [step, requestPermission]
      split
      · split
        · rw [checkFullAIModeAvailable_permissions]
          by_cases hq : q = p <;> simp [hq]
          · exact h q
        · by_cases hq : q = p <;> simp [hq]
          · exact h q
      · exact h q
  | revoke p now =>
      intro q
      simp only [step, revokePermission]
      split <;>
        · by_cases hq : q = p <;> simp [hq]
          · exact h q
  | enableFAM now =>
      intro q
      simp only [step, enableFullAIMode]
      split
      · rw [recordMilestone_permissions]
        exact h q
      · exact h q
  | disableFAM => exact h
  | interaction now =>
      intro q
      simp only [step, onInteraction, checkStageProgression]
      split
      · split
        · rw [recordMilestone_permissions]; exact h q
        · exact h q
      · split
        · split
          · rw [recordMilestone_permissions]; exact h q
          · exact h q
        · split
          · split
            · rw [recordMilestone_permissions]; exact h q
            · exact h q
          · exact h q
  | phoneActive now =>
      intro q
      simp only [step, onPhoneActive]
      split <;> exact h q
  | phoneSleep =>
      intro q
      simp only [step, onPhoneSleep]
      split <;> exact h q
  | charging b => exact h
  | battery q' => exact h
  | shutdown now =>
      intro q
      simp only [step, onPhoneShutdown, recordMilestone_permissions]
      exact h q
  | uninstall now =>
      intro q
      simp only [step, onUninstall, recordMilestone_permissions]
      exact h q

theorem consentInvariant_foldl (evs : List LCEvent) :
    ∀ s, ConsentInvariant s → ConsentInvariant (evs.foldl step s) := by
  induction evs with
  | nil => intro s hs; exact hs
  | cons e tl ih =>
      intro s hs
      exact ih _ (consentInvariant_step s e hs)

theorem consentInvariant_run (now₀ : ℚ) (evs : List LCEvent) :
    ConsentInvariant (run now₀ evs) :=
  consentInvariant_foldl evs _ (consentInvariant_init now₀)

/-! ## Claim C1 — Full-AI-Mode gating -/

/-- C1, counterexample: after the single call
`request_permission(FULL_AI_MODE, user_approved=True)`, `enable_full_ai_mode`
returns success and sets the flag although microphone, camera and sensors
are all still denied — refuting the claim that success requires all four
grants. -/
theorem c1_counterexample :
    (enableFullAIMode 0 (run 0 [.reqPerm .full_ai_mode true 0])).1 = true ∧
    (enableFullAIMode 0
        (run 0 [.reqPerm .full_ai_mode true 0])).2.full_ai_mode_enabled = true ∧
    ((run 0 [.reqPerm .full_ai_mode true 0]).permissions .microphone).granted
      = false ∧
    ((run 0 [.reqPerm .full_ai_mode true 0]).permissions .camera).granted = false ∧
    ((run 0 [.reqPerm .full_ai_mode true 0]).permissions .sensors).granted
      = false := by
  decide

/-- C1, amended: in every reachable state, `enableFullAIMode()` returns
success exactly when the `FULL_AI_MODE` grant alone has `granted=true`
(in which case that grant also carries `explicit_consent=true`, and the
full-AI-mode flag is set); microphone, camera and sensors are not checked.
On failure the state is unchanged. -/
theorem c1_enable_full_ai_mode (now₀ now : ℚ) (evs : List LCEvent) :
    ((enableFullAIMode now (run now₀ evs)).1
      = ((run now₀ evs).permissions .full_ai_mode).granted) ∧
    (((run now₀ evs).permissions .full_ai_mode).granted = true →
      (enableFullAIMode now (run now₀ evs)).2.full_ai_mode_enabled = true ∧
      ((run now₀ evs).permissions .full_ai_mode).explicit_consent = true) ∧
    (((run now₀ evs).permissions .full_ai_mode).granted = false →
      (enableFullAIMode now (run now₀ evs)).2 = run now₀ evs) := by
  refine ⟨?_, ?_, ?_⟩
  · by_cases h : ((run now₀ evs).permissions .full_ai_mode).granted
    · simp [enableFullAIMode, h]
    · simp [enableFullAIMode, h]
  · intro h
    constructor
    · simp [enableFullAIMode, h, recordMilestone_fam]
    · exact consentInvariant_run now₀ evs .full_ai_mode h
  · intro h
    simp [enableFullAIMode, h]

/-- C1, witness for the amended theorem: in the reachable state where only
`FULL_AI_MODE` was approved, enabling succeeds, sets the flag, and the
grant carries explicit consent. -/
theorem c1_witness :
    (enableFullAIMode 0
        (run 0 [.reqPerm .full_ai_mode true 0])).2.full_ai_mode_enabled = true ∧
    ((run 0 [.reqPerm .full_ai_mode true 0]).permissions
        .full_ai_mode).explicit_consent = true :=
  (c1_enable_full_ai_mode 0 0 [.reqPerm .full_ai_mode true 0]).2.1 (by decide)

/-! ## Claim C3 — terminality of END_OF_LIFE -/

theorem quiet_step_preserves_end_of_life (s : LifecycleState) (e : LCEvent)
    (hq : isQuietEvent e = true) (hs : s.current_stage = .end_of_life) :
    (step s e).current_stage = .end_of_life := by
  cases e with
  | interaction now =>
      simp only [step, onInteraction, checkStageProgression]
      simp [hs]
  | phoneActive now =>
      simp only [step, onPhoneActive]
      simp [hs]
  | birth now => simp [isQuietEvent] at hq
  | reqPerm p a now => simp [isQuietEvent] at hq
  | revoke p now => simp [isQuietEvent] at hq
  | enableFAM now => simp [isQuietEvent] at hq
  | disableFAM => simp [isQuietEvent] at hq
  | phoneSleep => simp [isQuietEvent] at hq
  | charging b => simp [isQuietEvent] at hq
  | battery q => simp [isQuietEvent] at hq
  | shutdown now => simp [isQuietEvent] at hq
  | uninstall now => simp [isQuietEvent] at hq

/-- C3, counterexample: after `on_uninstall()` forces `END_OF_LIFE`, a
single `on_phone_sleep()` call (with Full AI Mode background monitoring
inactive, as it is by default) moves the stage to `DORMANT` — refuting the
claim that no subsequent `onInteraction`/`onPhoneSleep`/`onPhoneActive`
call ever changes the stage. -/
theorem c3_counterexample :
    (run 0 [.birth 0, .uninstall 0]).current_stage = .end_of_life ∧
    (onPhoneSleep (run 0 [.birth 0, .uninstall 0])).current_stage = .dormant ∧
    AILifecycleStage.dormant ≠ AILifecycleStage.end_of_life := by
  decide

/-- C3, amended: `on_uninstall()` forces `END_OF_LIFE` from any state, and
no sequence of `onInteraction()`/`onPhoneActive()` calls ever moves the
stage away from it; but `END_OF_LIFE` is not terminal: an `onPhoneSleep()`
call in a state without active full-AI background monitoring moves the
stage to `DORMANT`. -/
theorem c3_end_of_life (s : LifecycleState) (hs : s.current_stage = .end_of_life) :
    (∀ x : LifecycleState, ∀ t : ℚ, (onUninstall t x).current_stage = .end_of_life) ∧
    (∀ evs : List LCEvent, (∀ e ∈ evs, isQuietEvent e = true) →
      (evs.foldl step s).current_stage = .end_of_life) ∧
    ((s.full_ai_mode_enabled = false ∨ s.background_monitoring_active = false) →
      (onPhoneSleep s).current_stage = .dormant) := by
  refine ⟨?_, ?_, ?_⟩
  · intro x t
    simp [onUninstall, recordMilestone_current_stage]
  · intro evs
    induction evs generalizing s with
    | nil => intro _; exact hs
    | cons e tl ih =>
        intro hq
        have h₁ : (step s e).current_stage = .end_of_life :=
          quiet_step_preserves_end_of_life s e (hq e (by simp)) hs
        exact ih _ h₁ (fun e' he' => hq e' (by simp [he']))
  · intro h
    have hcond : ¬ (s.full_ai_mode_enabled = true ∧
        s.background_monitoring_active = true) := by
      rcases h with h | h <;> simp [h]
    simp [onPhoneSleep, hcond]

/-- C3, witness for the amended theorem: concretely, after
`[birth, uninstall]`, interactions and phone-active events leave the stage
at `END_OF_LIFE`, while one `on_phone_sleep()` moves it to `DORMANT`. -/
theorem c3_witness :
    ([LCEvent.interaction 5, LCEvent.phoneActive 9].foldl step
        (run 0 [.birth 0, .uninstall 0])).current_stage = .end_of_life ∧
    (onPhoneSleep (run 0 [.birth 0, .uninstall 0])).current_stage = .dormant := by
  have h := c3_end_of_life (run 0 [.birth 0, .uninstall 0]) (by decide)
  exact ⟨h.2.1 [.interaction 5, .phoneActive 9] (by decide), h.2.2 (by decide)⟩


/-! ## Claim C7 — interaction-driven stage progression -/

theorem onInteraction_count (s : LifecycleState) (now : ℚ) :
    (onInteraction now s).interaction_count = s.interaction_count + 1 := by
  simp only [onInteraction, checkStageProgression]
  split
  · split
    · rw [recordMilestone_interaction_count]
    · rfl
  · split
    · split
      · rw [recordMilestone_interaction_count]
      · rfl
    · split
      · split
        · rw [recordMilestone_interaction_count]
        · rfl
      · rfl

theorem onInteraction_eq_of_init (s : LifecycleState) (now : ℚ)
    (hs : s.current_stage = .initialization) :
    onInteraction now s =
      if 5 < s.interaction_count + 1 then
        recordMilestone "early_learning_started" now
          { s with last_active_time := now,
                   interaction_count := s.interaction_count + 1,
                   runtime_seconds := pyInt (now - s.birth_time),
                   days_active := pyInt ((now - s.birth_time) / 86400),
                   current_stage := .early_learning }
      else
        { s with last_active_time := now,
                 interaction_count := s.interaction_count + 1,
                 runtime_seconds := pyInt (now - s.birth_time),
                 days_active := pyInt ((now - s.birth_time) / 86400) } := by
  simp [onInteraction, checkStageProgression, hs]

theorem onInteraction_eq_of_early (s : LifecycleState) (now : ℚ)
    (hs : s.current_stage = .early_learning) :
    onInteraction now s =
      if 50 < s.interaction_count + 1 ∨ 1 ≤ pyInt ((now - s.birth_time) / 86400) then
        recordMilestone "growth_stage_reached" now
          { s with last_active_time := now,
                   interaction_count := s.interaction_count + 1,
                   runtime_seconds := pyInt (now - s.birth_time),
                   days_active := pyInt ((now - s.birth_time) / 86400),
                   current_stage := .growth }
      else
        { s with last_active_time := now,
                 interaction_count := s.interaction_count + 1,
                 runtime_seconds := pyInt (now - s.birth_time),
                 days_active := pyInt ((now - s.birth_time) / 86400) } := by
  simp [onInteraction, checkStageProgression, hs]

theorem onInteraction_eq_of_growth (s : LifecycleState) (now : ℚ)
    (hs : s.current_stage = .growth) :
    onInteraction now s =
      if 500 < s.interaction_count + 1 ∨ 7 ≤ pyInt ((now - s.birth_time) / 86400) then
        recordMilestone "maturity_reached" now
          { s with last_active_time := now,
                   interaction_count := s.interaction_count + 1,
                   runtime_seconds := pyInt (now - s.birth_time),
                   days_active := pyInt ((now - s.birth_time) / 86400),
                   current_stage := .mature }
      else
        { s with last_active_time := now,
                 interaction_count := s.interaction_count + 1,
                 runtime_seconds := pyInt (now - s.birth_time),
                 days_active := pyInt ((now - s.birth_time) / 86400) } := by
  simp [onInteraction, checkStageProgression, hs]

theorem onInteraction_eq_of_other (s : LifecycleState) (now : ℚ)
    (h₁ : s.current_stage ≠ .initialization)
    (h₂ : s.current_stage ≠ .early_learning)
    (h₃ : s.current_stage ≠ .growth) :
    onInteraction now s =
      { s with last_active_time := now,
               interaction_count := s.interaction_count + 1,
               runtime_seconds := pyInt (now - s.birth_time),
               days_active := pyInt ((now - s.birth_time) / 86400) } := by
  simp [onInteraction, checkStageProgression, h₁, h₂, h₃]

/-- C7: `on_interaction()` increments the interaction counter; from
`INITIALIZATION` the stage flips to `EARLY_LEARNING` exactly when the new
count exceeds 5 (so the 6th call from a fresh birth flips it, not the 5th);
from `EARLY_LEARNING` to `GROWTH` when the count exceeds 50 or elapsed
days reach 1; from `GROWTH` to `MATURE` when the count exceeds 500 or
elapsed days reach 7; other stages never change; at most one stage advance
happens per call; each transition's distinct milestone is recorded, and the
write-once ledger never duplicates a milestone name. -/
theorem c7_on_interaction (s : LifecycleState) (now : ℚ) :
    ((onInteraction now s).interaction_count = s.interaction_count + 1) ∧
    (s.current_stage = .initialization →
      ((onInteraction now s).current_stage =
        if 5 < s.interaction_count + 1 then .early_learning else .initialization) ∧
      (5 < s.interaction_count + 1 →
        ((onInteraction now s).milestones_reached.map Prod.fst).contains
          "early_learning_started" = true)) ∧
    (s.current_stage = .early_learning →
      ((onInteraction now s).current_stage =
        if 50 < s.interaction_count + 1 ∨ 1 ≤ pyInt ((now - s.birth_time) / 86400)
        then .growth else .early_learning) ∧
      ((50 < s.interaction_count + 1 ∨ 1 ≤ pyInt ((now - s.birth_time) / 86400)) →
        ((onInteraction now s).milestones_reached.map Prod.fst).contains
          "growth_stage_reached" = true)) ∧
    (s.current_stage = .growth →
      ((onInteraction now s).current_stage =
        if 500 < s.interaction_count + 1 ∨ 7 ≤ pyInt ((now - s.birth_time) / 86400)
        then .mature else .growth) ∧
      ((500 < s.interaction_count + 1 ∨ 7 ≤ pyInt ((now - s.birth_time) / 86400)) →
        ((onInteraction now s).milestones_reached.map Prod.fst).contains
          "maturity_reached" = true)) ∧
    ((s.current_stage = .birth ∨ s.current_stage = .mature ∨
        s.current_stage = .dormant ∨ s.current_stage = .end_of_life) →
      (onInteraction now s).current_stage = s.current_stage) ∧
    ((onInteraction now s).current_stage = s.current_stage ∨
      (s.current_stage = .initialization ∧
        (onInteraction now s).current_stage = .early_learning) ∨
      (s.current_stage = .early_learning ∧
        (onInteraction now s).current_stage = .growth) ∨
      (s.current_stage = .growth ∧
        (onInteraction now s).current_stage = .mature)) ∧
    ((s.milestones_reached.map Prod.fst).Nodup →
      ((onInteraction now s).milestones_reached.map Prod.fst).Nodup) ∧
    ((run 0 ([.birth 0] ++ List.replicate 5 (.interaction 0))).current_stage
      = .initialization) ∧
    ((run 0 ([.birth 0] ++ List.replicate 6 (.interaction 0))).current_stage
      = .early_learning) := by
  refine ⟨onInteraction_count s now, ?_, ?_, ?_, ?_, ?_, ?_, by decide, by decide⟩
  · intro hstage
    rw [onInteraction_eq_of_init s now hstage]
    constructor
    · split
      · rw [recordMilestone_current_stage]
      · exact hstage
    · intro hc
      rw [if_pos hc]
      exact recordMilestone_contains_self _ _ _
  · intro hstage
    rw [onInteraction_eq_of_early s now hstage]
    constructor
    · split
      · rw [recordMilestone_current_stage]
      · exact hstage
    · intro hc
      rw [if_pos hc]
      exact recordMilestone_contains_self _ _ _
  · intro hstage
    rw [onInteraction_eq_of_growth s now hstage]
    constructor
    · split
      · rw [recordMilestone_current_stage]
      · exact hstage
    · intro hc
      rw [if_pos hc]
      exact recordMilestone_contains_self _ _ _
  · intro hstage
    have h₁ : s.current_stage ≠ .initialization := by
      rcases hstage with h | h | h | h <;> simp [h]
    have h₂ : s.current_stage ≠ .early_learning := by
      rcases hstage with h | h | h | h <;> simp [h]
    have h₃ : s.current_stage ≠ .growth := by
      rcases hstage with h | h | h | h <;> simp [h]
    rw [onInteraction_eq_of_other s now h₁ h₂ h₃]
  · cases hstage : s.current_stage with
    | initialization =>
        rw [onInteraction_eq_of_init s now hstage]
        split
        · right; left
          exact ⟨rfl, by rw [recordMilestone_current_stage]⟩
        · left
          rw [hstage]
    | early_learning =>
        rw [onInteraction_eq_of_early s now hstage]
        split
        · right; right; left
          exact ⟨rfl, by rw [recordMilestone_current_stage]⟩
        · left
          rw [hstage]
    | growth =>
        rw [onInteraction_eq_of_growth s now hstage]
        split
        · right; right; right
          exact ⟨rfl, by rw [recordMilestone_current_stage]⟩
        · left
          rw [hstage]
    | birth =>
        left
        rw [onInteraction_eq_of_other s now (by simp [hstage]) (by simp [hstage])
          (by simp [hstage])]
        exact hstage
    | mature =>
        left
        rw [onInteraction_eq_of_other s now (by simp [hstage]) (by simp [hstage])
          (by simp [hstage])]
        exact hstage
    | dormant =>
        left
        rw [onInteraction_eq_of_other s now (by simp [hstage]) (by simp [hstage])
          (by simp [hstage])]
        exact hstage
    | end_of_life =>
        left
        rw [onInteraction_eq_of_other s now (by simp [hstage]) (by simp [hstage])
          (by simp [hstage])]
        exact hstage
  · intro hnd
    simp only [onInteraction, checkStageProgression]
    split
    · split
      · exact recordMilestone_nodup _ _ _ hnd
      · exact hnd
    · split
      · split
        · exact recordMilestone_nodup _ _ _ hnd
        · exact hnd
      · split
        · split
          · exact recordMilestone_nodup _ _ _ hnd
          · exact hnd
        · exact hnd

/-- C7, witness: from a fresh birth, the sixth interaction flips the stage
to `EARLY_LEARNING`, by the threshold branch of the theorem. -/
theorem c7_witness :
    (onInteraction 0
        (run 0 ([.birth 0] ++ List.replicate 5 (.interaction 0)))).current_stage
      = .early_learning := by
  have h := c7_on_interaction
    (run 0 ([.birth 0] ++ List.replicate 5 (.interaction 0))) 0
  have h₂ := (h.2.1 (by decide)).1
  rw [h₂, if_pos (by decide)]


/-! ## Claim C4 — missing file seeds defaults; corrupt file is fatal -/

/-- C4: constructing the store over an absent file is not an error — it
seeds the default document (base traits, default emotional profile, default
naming profile) and immediately persists it; constructing it over an
unparseable file surfaces the fatal corruption error to the caller, with no
fallback state produced. -/
theorem c4_load_or_initialize (now : ℚ) :
    (loadOrInitialize now (freshHeart none)
      = .ok (initializeNewHeart now (freshHeart none))) ∧
    (initializeNewHeart now (freshHeart none)).personality_traits = baseTraits ∧
    (initializeNewHeart now (freshHeart none)).emotional_profile
      = some defaultEmotionalProfile ∧
    (initializeNewHeart now (freshHeart none)).name_profile = some {} ∧
    (initializeNewHeart now (freshHeart none)).file
      = some (.doc (mkDoc now (initializeNewHeart now (freshHeart none)))) ∧
    loadOrInitialize now (freshHeart (some .corrupt)) = .error .dataCorruption := by
  exact ⟨rfl, rfl, rfl, rfl, rfl, rfl⟩

/-! ## Claim C6 — storeMemory: clamping, write-through, increasing ids -/

theorem clamp_comm (x : ℚ) : min 1 (max 0 x) = max 0 (min 1 x) := by
  rcases le_total x 0 with h | h <;> rcases le_total 1 x with h' | h' <;>
    simp [min_def, max_def] <;> split_ifs <;> linarith

/-- C6: `store_memory` stores an entry whose importance is the clamp
`max(0, min(1, x))`, persists the document synchronously before returning,
returns the current counter as the id, and ids of successive calls on the
same instance are strictly increasing (hence unique). -/
theorem c6_store_memory (s : HeartState) (now now' : ℚ)
    (category content category' content' : String) (x x' : ℚ)
    (tags tags' : Option (List String)) :
    (dictLookup (storeMemory now category content x tags s).2.memory_entries
        (storeMemory now category content x tags s).1 =
      some { timestamp := now, category := category, content := content,
             importance_score := max 0 (min 1 x), tags := tags.getD [],
             related_memories := [] }) ∧
    (storeMemory now category content x tags s).1 = s.memory_counter ∧
    (storeMemory now category content x tags s).2.memory_counter
      = (storeMemory now category content x tags s).1 + 1 ∧
    (storeMemory now category content x tags s).2.file
      = some (.doc (mkDoc now (storeMemory now category content x tags s).2)) ∧
    (storeMemory now' category' content' x' tags'
        (storeMemory now category content x tags s).2).1
      = (storeMemory now category content x tags s).1 + 1 ∧
    (storeMemory now category content x tags s).1
      < (storeMemory now' category' content' x' tags'
          (storeMemory now category content x tags s).2).1 := by
  refine ⟨?_, rfl, rfl, rfl, rfl, Nat.lt_succ_self _⟩
  have h := dictLookup_dictInsert_self s.memory_counter
    ({ timestamp := now, category := category, content := content,
       importance_score := min 1 (max 0 x), tags := tags.getD [],
       related_memories := [] } : MemoryEntry) s.memory_entries
  nth_rewrite 2 [clamp_comm] at h
  exact h


/-! ## Claim C5 — updatePersonalityTrait: damped update, write-through only with a reason -/

/-- C5, counterexample: on the freshly seeded heart,
`update_personality_trait("curiosity", 1.0)` with no reason supplied
updates the in-memory value to the damped average 0.9 but performs no
save: the storage file still holds the seeded document in which curiosity
is 0.8 — refuting the claim that the on-disk document reflects the update
whether or not a reason is supplied. -/
theorem c5_counterexample :
    ((dictLookup (updatePersonalityTrait 0 "curiosity" 1 none
        (initializeNewHeart 0 (freshHeart none))).personality_traits
        "curiosity").map PersonalityTrait.value = some (9/10)) ∧
    ((updatePersonalityTrait 0 "curiosity" 1 none
        (initializeNewHeart 0 (freshHeart none))).file
      = (initializeNewHeart 0 (freshHeart none)).file) ∧
    ((updatePersonalityTrait 0 "curiosity" 1 none
        (initializeNewHeart 0 (freshHeart none))).file
      = some (.doc (mkDoc 0 seededHeart))) ∧
    ((dictLookup (mkDoc 0 seededHeart).personality_traits "curiosity").map
        PersonalityTrait.value = some (4/5)) ∧
    (4/5 : ℚ) ≠ 9/10 := by
  refine ⟨?_, rfl, rfl, rfl, by norm_num⟩
  have hv : min (1:ℚ) (max 0 ((4/5 + 1) / 2)) = 9/10 := by
    rw [max_eq_right (by norm_num : (0:ℚ) ≤ (4/5 + 1) / 2),
      min_eq_right (by norm_num : ((4:ℚ)/5 + 1) / 2 ≤ 1)]
    norm_num
  show some (min (1:ℚ) (max 0 ((4/5 + 1) / 2))) = some (9/10)
  exact congrArg some hv

/-- C5, amended: if the trait exists, `update_personality_trait` sets the
in-memory value to the damped average `clamp((old + proposed)/2, 0, 1)` —
never an overwrite; but the mutation is written through to disk only when
a reason is supplied (the save happens inside the logging `store_memory`
call); with no reason the storage file is left untouched. -/
theorem c5_update_personality_trait (s : HeartState) (now : ℚ)
    (traitName : String) (v : ℚ) (trait : PersonalityTrait)
    (h : dictLookup s.personality_traits traitName = some trait) :
    (dictLookup (updatePersonalityTrait now traitName v none s).personality_traits
        traitName
      = some { trait with value := min 1 (max 0 ((trait.value + v) / 2)) }) ∧
    ((updatePersonalityTrait now traitName v none s).file = s.file) ∧
    (∀ r : String, ∃ d : HeartDoc,
      (updatePersonalityTrait now traitName v (some r) s).file = some (.doc d) ∧
      dictLookup d.personality_traits traitName
        = some { trait with value := min 1 (max 0 ((trait.value + v) / 2)) }) := by
  refine ⟨?_, ?_, ?_⟩
  · simp only [updatePersonalityTrait, h]
    exact dictLookup_dictInsert_self _ _ _
  · simp only [updatePersonalityTrait, h]
  · intro r
    simp only [updatePersonalityTrait, h, storeMemory, heartSave]
    exact ⟨_, rfl, dictLookup_dictInsert_self _ _ _⟩

/-- C5, witness for the amended theorem: on the freshly seeded heart the
"curiosity" trait exists with value 0.8; updating it with proposed value 1
and no reason yields the damped in-memory value and leaves the file
untouched. -/
theorem c5_witness :
    (dictLookup (updatePersonalityTrait 0 "curiosity" 1 none
        (initializeNewHeart 0 (freshHeart none))).personality_traits "curiosity"
      = some { name := "curiosity",
               value := min 1 (max 0 (((4:ℚ)/5 + 1) / 2)), influences := [] }) ∧
    (updatePersonalityTrait 0 "curiosity" 1 none
        (initializeNewHeart 0 (freshHeart none))).file
      = (initializeNewHeart 0 (freshHeart none)).file := by
  have h := c5_update_personality_trait (initializeNewHeart 0 (freshHeart none)) 0
    "curiosity" 1 { name := "curiosity", value := 4/5, influences := [] } rfl
  exact ⟨h.1, h.2.1⟩


/-! ## Claim C2 — save/load round trip -/

/-- C2, counterexample: a store state whose naming profile is `NAMED` with
a naming date (reachable: the naming engine sets both on a successful
naming ceremony) does not survive `save()` + `load()` into a fresh
instance: `load` rebuilds the `NameProfile` without passing
`naming_status`/`date_named`, so they revert to the dataclass defaults
`UNNAMED`/`None` — refuting round-trip fidelity of the naming profile. -/
theorem c2_counterexample :
    ({ initializeNewHeart 0 (freshHeart none) with
        name_profile := some { naming_status := .named, date_named := some 100 } } :
          HeartState).name_profile
      = some { naming_status := .named, date_named := some 100 } ∧
    (heartLoadDoc
        (mkDoc 0 { initializeNewHeart 0 (freshHeart none) with
          name_profile := some { naming_status := .named, date_named := some 100 } })
        (freshHeart (some (.doc
          (mkDoc 0 { initializeNewHeart 0 (freshHeart none) with
            name_profile := some { naming_status := .named,
                                   date_named := some 100 } }))))).name_profile
      = some ({} : NameProfile) ∧
    some ({} : NameProfile)
      ≠ some ({ naming_status := .named, date_named := some 100 } : NameProfile) := by
  refine ⟨rfl, by decide, by decide⟩

/-- C2, amended: `save()` immediately followed by `load()` into a fresh
instance reproduces the personality-trait map and persona profile exactly,
and the memory entries and emotional profile up to the fields `load` does
not restore: every entry's `related_memories` list and the profile's
transient `emotional_memory` map come back empty; the naming profile comes
back with every persisted field intact except `naming_status` and
`date_named`, which revert to the defaults `UNNAMED`/`None`. -/
theorem c2_round_trip (s : HeartState) (now : ℚ) (np : NameProfile)
    (hnp : s.name_profile = some np)
    (hmem : (s.memory_entries.map Prod.fst).Nodup)
    (htr : (s.personality_traits.map Prod.fst).Nodup) :
    ((heartLoadDoc (mkDoc now s)
        (freshHeart (some (.doc (mkDoc now s))))).memory_entries
      = s.memory_entries.map
          (fun p => (p.1, { p.2 with related_memories := [] }))) ∧
    ((heartLoadDoc (mkDoc now s)
        (freshHeart (some (.doc (mkDoc now s))))).personality_traits
      = s.personality_traits) ∧
    ((heartLoadDoc (mkDoc now s)
        (freshHeart (some (.doc (mkDoc now s))))).emotional_profile
      = s.emotional_profile.map (fun ep => { ep with emotional_memory := [] })) ∧
    ((heartLoadDoc (mkDoc now s)
        (freshHeart (some (.doc (mkDoc now s))))).name_profile
      = some { np with naming_status := .unnamed, date_named := none }) ∧
    ((heartLoadDoc (mkDoc now s)
        (freshHeart (some (.doc (mkDoc now s))))).persona_profile
      = s.persona_profile) := by
  refine ⟨?_, ?_, ?_, ?_, ?_⟩
  · have hent : (heartLoadDoc (mkDoc now s)
        (freshHeart (some (.doc (mkDoc now s))))).memory_entries
        = s.memory_entries.foldl
            (fun acc p =>
              dictInsert p.1 ({ p.2 with related_memories := [] } : MemoryEntry) acc)
            [] := rfl
    rw [hent]
    have h := foldl_dictInsert_append
      (fun p : ℕ × MemoryEntry => ({ p.2 with related_memories := [] } : MemoryEntry))
      s.memory_entries [] hmem (by simp)
    simpa using h
  · have htr' : (heartLoadDoc (mkDoc now s)
        (freshHeart (some (.doc (mkDoc now s))))).personality_traits
        = s.personality_traits.foldl (fun acc p => dictInsert p.1 p.2 acc) [] := rfl
    rw [htr']
    have h := foldl_dictInsert_append (fun p : String × PersonalityTrait => p.2)
      s.personality_traits [] htr (by simp)
    simpa using h
  · cases he : s.emotional_profile with
    | none => simp [heartLoadDoc, mkDoc, freshHeart, he]
    | some ep => simp [heartLoadDoc, mkDoc, freshHeart, he]
  · simp [heartLoadDoc, mkDoc, freshHeart, hnp]
  · cases hp : s.persona_profile with
    | none => simp [heartLoadDoc, mkDoc, freshHeart, hp]
    | some pp => simp [heartLoadDoc, mkDoc, freshHeart, hp]

/-- C2, witness for the amended theorem: the freshly seeded heart (default
naming profile, no memories) round-trips through `save`/`load` with its
trait map intact and its naming profile at the defaults. -/
theorem c2_witness :
    ((heartLoadDoc (mkDoc 0 (initializeNewHeart 0 (freshHeart none)))
        (freshHeart (some (.doc
          (mkDoc 0 (initializeNewHeart 0 (freshHeart none))))))).personality_traits
      = (initializeNewHeart 0 (freshHeart none)).personality_traits) ∧
    ((heartLoadDoc (mkDoc 0 (initializeNewHeart 0 (freshHeart none)))
        (freshHeart (some (.doc
          (mkDoc 0 (initializeNewHeart 0 (freshHeart none))))))).name_profile
      = some ({} : NameProfile)) := by
  have h := c2_round_trip (initializeNewHeart 0 (freshHeart none)) 0 {} rfl
    (by simp [initializeNewHeart, heartSave, freshHeart]) (by decide)
  exact ⟨h.2.1, h.2.2.2.1⟩


/-! ## Claim C8 — the interaction buffer is a capacity-100 FIFO ring -/

theorem storeInteraction_recent {α : Type} (now : ℚ) (x : InteractionLog α)
    (s : WorkingMemory α) :
    (storeInteraction now x s).recent_interactions
      = dequeAppend 100 s.recent_interactions x := rfl

theorem dequeAppend_spec {α : Type} (l : List α) (x : α) :
    dequeAppend 100 l x = (l ++ [x]).drop (l.length + 1 - 100) := by
  simp [dequeAppend]

theorem foldl_storeInteraction {α : Type} (t : ℚ) :
    ∀ (xs : List (InteractionLog α)) (s : WorkingMemory α),
      s.recent_interactions.length ≤ 100 →
      (xs.foldl (fun acc x => storeInteraction t x acc) s).recent_interactions
        = (s.recent_interactions ++ xs).drop
            (s.recent_interactions.length + xs.length - 100)
  | [], s, h => by
      simp [Nat.sub_eq_zero_of_le h]
  | x :: xs, s, h => by
      have hstep : (storeInteraction t x s).recent_interactions
          = (s.recent_interactions ++ [x]).drop
              (s.recent_interactions.length + 1 - 100) := by
        rw [storeInteraction_recent, dequeAppend_spec]
      have hlen : (storeInteraction t x s).recent_interactions.length ≤ 100 := by
        rw [hstep, List.length_drop]
        simp only [List.length_append, List.length_singleton]
        omega
      have ih := foldl_storeInteraction t xs (storeInteraction t x s) hlen
      rw [List.foldl_cons, ih, hstep, List.length_drop]
      rw [← List.drop_append_of_le_length
        (by simp only [List.length_append, List.length_singleton]; omega)]
      rw [List.drop_drop]
      rw [List.append_assoc, List.singleton_append]
      congr 1
      simp only [List.length_append, List.length_singleton, List.length_cons,
        List.length_nil]
      omega

/-- C8: the interaction buffer is a fixed-capacity FIFO ring of capacity
100: storing a list of 150 interactions into a fresh cache leaves exactly
the 100 most recently stored ones, in insertion order (the suffix after
dropping the 50 oldest), each older entry having been evicted
oldest-first. -/
theorem c8_fifo_ring {α : Type} (t : ℚ) (xs : List (InteractionLog α))
    (h : xs.length = 150) :
    ((xs.foldl (fun acc x => storeInteraction t x acc)
        (initWorkingMemory α)).recent_interactions = xs.drop 50) ∧
    (xs.drop 50).length = 100 := by
  constructor
  · have := foldl_storeInteraction t xs (initWorkingMemory α) (by simp [initWorkingMemory])
    simpa [initWorkingMemory, h] using this
  · simp [h]

/-- C8, witness: 150 concrete interaction logs folded into a fresh cache
leave exactly the last 100 of them. -/
theorem c8_witness :
    ((List.range 150).map sampleLog).length = 150 ∧
    ((((List.range 150).map sampleLog).foldl
        (fun acc x => storeInteraction 0 x acc)
        (initWorkingMemory Unit)).recent_interactions
      = ((List.range 150).map sampleLog).drop 50) :=
  ⟨by simp, (c8_fifo_ring 0 ((List.range 150).map sampleLog) (by simp)).1⟩


/-! ## Claim C9 — TTL semantics of the reasoning cache -/

/-- C9: after `cache_reasoning_result(key, v, ttl)` at time `t₀`, a
`get_cached_reasoning(key)` at time `t₁` is a hit returning `v` and
incrementing the hit counter when the age `t₁ - t₀` is at most `ttl`; when
the age strictly exceeds `ttl` the entry is deleted from the cache, the
call reports a miss, and the miss counter is incremented; a lookup of an
absent key is likewise a counted miss. -/
theorem c9_reasoning_ttl {α : Type} (s : WorkingMemory α) (k : String) (v : α)
    (ttl : ℤ) (t₀ t₁ : ℚ) :
    (t₁ - t₀ ≤ (ttl : ℚ) →
      getCachedReasoning k t₁ (cacheReasoningResult k v ttl t₀ s)
        = (some v, { cacheReasoningResult k v ttl t₀ s with
            cache_hits := s.cache_hits + 1 })) ∧
    ((ttl : ℚ) < t₁ - t₀ →
      getCachedReasoning k t₁ (cacheReasoningResult k v ttl t₀ s)
        = (none, { cacheReasoningResult k v ttl t₀ s with
            reasoning_cache :=
              dictErase k (cacheReasoningResult k v ttl t₀ s).reasoning_cache,
            cache_misses := s.cache_misses + 1 }) ∧
      dictLookup
        (dictErase k (cacheReasoningResult k v ttl t₀ s).reasoning_cache) k
        = none) ∧
    (dictLookup s.reasoning_cache k = none →
      getCachedReasoning k t₁ s = (none, { s with
        cache_misses := s.cache_misses + 1 })) := by
    refine ⟨?_, ?_, ?_⟩
    · intro h
      simp only [getCachedReasoning, cacheReasoningResult,
        dictLookup_dictInsert_self]
      rw [if_neg (by simpa using not_lt.mpr h)]
    · intro h
      refine ⟨?_, dictLookup_dictErase_self _ _⟩
      simp only [getCachedReasoning, cacheReasoningResult,
        dictLookup_dictInsert_self]
      rw [if_pos (by simpa using h)]
    · intro h
      simp only [getCachedReasoning, h]

/-- C9, witness: `cacheReasoningResult("k", v, ttlSeconds=1)` at time 0
followed by a read at time 1.5 is a counted miss with the entry removed;
a read at time 1 is a hit returning `v`. -/
theorem c9_witness :
    ((getCachedReasoning "k" (3/2)
        (cacheReasoningResult "k" (0 : ℤ) 1 0 (initWorkingMemory ℤ))).1 = none) ∧
    ((getCachedReasoning "k" (3/2)
        (cacheReasoningResult "k" (0 : ℤ) 1 0
          (initWorkingMemory ℤ))).2.cache_misses = 1) ∧
    (dictLookup (getCachedReasoning "k" (3/2)
        (cacheReasoningResult "k" (0 : ℤ) 1 0
          (initWorkingMemory ℤ))).2.reasoning_cache "k" = none) ∧
    ((getCachedReasoning "k" 1
        (cacheReasoningResult "k" (0 : ℤ) 1 0 (initWorkingMemory ℤ))).1
      = some 0) := by
  have hmiss := (c9_reasoning_ttl (initWorkingMemory ℤ) "k" 0 1 0 (3/2)).2.1
    (by norm_num)
  have hhit := (c9_reasoning_ttl (initWorkingMemory ℤ) "k" 0 1 0 1).1
    (by norm_num)
  refine ⟨by rw [hmiss.1], by rw [hmiss.1]; rfl, ?_, by rw [hhit]⟩
  rw [hmiss.1]
  exact hmiss.2

/-! ## Claim C10 — clear() empties collections but keeps the counters -/

/-- C10: `clear()` empties the interaction ring, the sensor map, the
reasoning cache and the context store, while leaving the hit and miss
counters untouched, so `get_performance_stats()` afterwards reports the
same hit/miss counts and hit rate with all size fields at zero. -/
theorem c10_clear_frame {α : Type} (s : WorkingMemory α) :
    (wmClear s).recent_interactions = [] ∧
    (wmClear s).sensor_cache = [] ∧
    (wmClear s).reasoning_cache = [] ∧
    (wmClear s).context_state = [] ∧
    (wmClear s).cache_hits = s.cache_hits ∧
    (wmClear s).cache_misses = s.cache_misses ∧
    getPerformanceStats (wmClear s)
      = { getPerformanceStats s with
          interactions_stored := 0
          sensor_entries := 0
          reasoning_cache_size := 0
          context_entries := 0 } := by
  exact ⟨rfl, rfl, rfl, rfl, rfl, rfl, rfl⟩

end ProjectMind
